import Mathlib

/-!
Verification of the Photo-SLAM OpenXR / frame-ingest core.

Shallow embedding of the repository's core logic:

* `FrameQueue` — the bounded drop-oldest queue of sensor frame pairs from
  `src/examples/mujoco_rgbd.cpp` (`imageBuffer`, `MAX_BUFFER_SIZE`,
  `socketReceiver`, and the consumer loop in `main`).
* `XRApp` — the OpenXR session state machine, shutdown sequence, frame
  cycle and per-view render routine from `src/openxr/openxrapp.cpp`, and the
  pose conversion and swapchain-format helpers from `src/openxr/openxrapp.h`.

External collaborators (the ZeroMQ transport, image decoder, SLAM tracker,
Gaussian mapper and the OpenXR runtime itself) are modelled as oracles: their
success/failure results and returned data are inputs to the embedded
functions, exactly at the call sites where the source consults them.
Floating-point arithmetic in the pose bridge is modelled over exact
rationals; the properties proved about it are structural (the correction
matrix has entries in {-1, 0, 1} and the claims are about the composition of
transforms, not about rounding).
-/

namespace FrameQueue

/-- The constant `MAX_BUFFER_SIZE` from `mujoco_rgbd.cpp` (line 29). -/
def MAX_BUFFER_SIZE : Nat := 10

/-- The push performed by `socketReceiver` (`mujoco_rgbd.cpp` lines 56-63):
if `imageBuffer.size() >= MAX_BUFFER_SIZE`, pop the front (oldest) entry,
then push the new pair at the back.  The queue is modelled as a list whose
head is the front. -/
def push {α : Type} (q : List α) (x : α) : List α :=
  if MAX_BUFFER_SIZE ≤ q.length then q.tail ++ [x] else q ++ [x]

/-- Repeated pushes, in order. -/
def pushAll {α : Type} (q : List α) (xs : List α) : List α :=
  xs.foldl push q

/-- The read `imageBuffer.front()` of the consumer loop (`main`, lines 150-151):
the front entry, if any. -/
def front? {α : Type} (q : List α) : Option α := q.head?

/-- The call `imageBuffer.pop()` in the consumer loop: remove the front entry. -/
def pop {α : Type} (q : List α) : List α := q.tail

/-- The order in which repeated `front`/`pop` operations drain the queue. -/
def drain {α : Type} : List α → List α
  | [] => []
  | x :: rest => x :: drain rest

/-- Draining is exactly the iteration of the consumer's `front`/`pop` pair. -/
theorem drain_eq_front_pop {α : Type} (q : List α) :
    drain q = match front? q with
      | none => []
      | some x => x :: drain (pop q) := by
  cases q <;> rfl

/-- One iteration of the producer loop `socketReceiver`
(`mujoco_rgbd.cpp` lines 36-65): receive a color and a depth message,
decode both; if either decode yields an empty image, discard the pair and
continue; otherwise push the decoded pair.  `rgbOk`/`depthOk` are the
decoder oracle's results (`!imRGB.empty()` / `!imD.empty()`), `frame` the
decoded pair. -/
structure IngestInput (α : Type) where
  rgbOk : Bool
  depthOk : Bool
  frame : α

/-- Effect of one `socketReceiver` iteration on the queue. -/
def socketReceiverStep {α : Type} (q : List α) (inp : IngestInput α) : List α :=
  if !inp.rgbOk || !inp.depthOk then q else push q inp.frame

/-- The producer loop over a finite schedule of received inputs; the real
loop is infinite, so every finite prefix of its behaviour is captured. -/
def socketReceiverRun {α : Type} (q : List α) : List (IngestInput α) → List α
  | [] => q
  | inp :: rest => socketReceiverRun (socketReceiverStep q inp) rest

end FrameQueue

namespace XRApp

/-- The OpenXR destroy/lifecycle calls whose invocation order the claims
speak about, as recorded against the runtime collaborator. -/
inductive Act where
  | beginSession
  | endSession
  | destroySession
  | destroySwapchain
  | destroySpace
  | destroyInstance
  | beginFrame
  | endFrame
  | acquireImage
  | waitImage
  | uploadImage
  | blitMirror
  | releaseImage
  deriving DecidableEq, Repr

/-- The `XrSessionState` values handled by `HandleSessionStateChanged`
(`openxrapp.cpp` lines 590-666). -/
inductive SessionState where
  | unknown
  | idle
  | ready
  | synchronized
  | visible
  | focused
  | stopping
  | exiting
  | lossPending
  deriving DecidableEq, Repr

/-- The lifecycle-relevant fields of `OpenXRApp`: `m_state`,
`m_session_running`, `m_run_framecycle`, `m_quit_mainloop`, and liveness of
the four runtime handles (`m_session`, `m_swapchains`, `m_play_space`,
`m_instance` being non-null/non-empty). -/
structure AppState where
  state : SessionState
  sessionRunning : Bool
  runFramecycle : Bool
  quitMainloop : Bool
  sessionAlive : Bool
  swapchainsAlive : Bool
  spaceAlive : Bool
  instanceAlive : Bool
  deriving DecidableEq, Repr

/-- State of `OpenXRApp` right after a successful `Initialize()` and at entry
to `Run()` (`openxrapp.cpp` lines 104-137): all handles created, nothing
running yet. -/
def initState : AppState :=
  { state := .unknown
    sessionRunning := false
    runFramecycle := false
    quitMainloop := false
    sessionAlive := true
    swapchainsAlive := true
    spaceAlive := true
    instanceAlive := true }

/-- A `XR_TYPE_EVENT_DATA_SESSION_STATE_CHANGED` event together with the
runtime oracle's answers for the calls the handler may make on it:
`beginOk` is the result of `xrBeginSession`, `endOk` of `xrEndSession`. -/
structure StateEvent where
  newState : SessionState
  beginOk : Bool
  endOk : Bool
  deriving DecidableEq, Repr

/-- Model of `HandleSessionStateChanged` (`openxrapp.cpp` lines 590-666), returning
the updated app state and the list of runtime calls made, in order.
`xrEndSession`'s result is checked only for logging (line 619), so `endOk`
does not influence the result — exactly as in the source. -/
def handleSessionStateChanged (s : AppState) (ev : StateEvent) :
    AppState × List Act :=
  let s := { s with state := ev.newState }
  match ev.newState with
  | .ready =>
    if !s.sessionRunning then
      if ev.beginOk then
        ({ s with sessionRunning := true, runFramecycle := true }, [.beginSession])
      else
        ({ s with quitMainloop := true }, [.beginSession])
    else
      ({ s with runFramecycle := true }, [])
  | .stopping =>
    if s.sessionRunning then
      ({ s with sessionRunning := false, runFramecycle := false }, [.endSession])
    else
      ({ s with runFramecycle := false }, [])
  | .exiting =>
    if s.sessionAlive then
      ({ s with sessionAlive := false, runFramecycle := false, quitMainloop := true },
        [.destroySession])
    else
      ({ s with runFramecycle := false, quitMainloop := true }, [])
  | .lossPending =>
    if s.sessionAlive then
      ({ s with sessionAlive := false, runFramecycle := false, quitMainloop := true },
        [.destroySession])
    else
      ({ s with runFramecycle := false, quitMainloop := true }, [])
  | .idle => ({ s with runFramecycle := false }, [])
  | .synchronized => ({ s with runFramecycle := true }, [])
  | .visible => ({ s with runFramecycle := true }, [])
  | .focused => ({ s with runFramecycle := true }, [])
  | .unknown => ({ s with runFramecycle := false }, [])

/-- Process a sequence of state-changed events, concatenating the recorded
runtime calls. -/
def processEvents (s : AppState) : List StateEvent → AppState × List Act
  | [] => (s, [])
  | ev :: rest =>
    let r := handleSessionStateChanged s ev
    let r2 := processEvents r.1 rest
    (r2.1, r.2 ++ r2.2)

/-- Model of `Shutdown()` (`openxrapp.cpp` lines 157-189): destroy swapchains, then
the space, then the session (only if still alive and the last observed state
is not EXITING/LOSS_PENDING), then the instance. -/
def shutdown (s : AppState) : AppState × List Act :=
  let s0 := { s with quitMainloop := true }
  let r1 : AppState × List Act :=
    if s0.swapchainsAlive then
      ({ s0 with swapchainsAlive := false }, [Act.destroySwapchain])
    else (s0, [])
  let r2 : AppState × List Act :=
    if r1.1.spaceAlive then ({ r1.1 with spaceAlive := false }, [Act.destroySpace])
    else (r1.1, [])
  let r3 : AppState × List Act :=
    if r2.1.sessionAlive then
      if r2.1.state ≠ SessionState.exiting ∧ r2.1.state ≠ SessionState.lossPending then
        ({ r2.1 with sessionAlive := false }, [Act.destroySession])
      else ({ r2.1 with sessionAlive := false }, [])
    else (r2.1, [])
  let r4 : AppState × List Act :=
    if r3.1.instanceAlive then
      ({ r3.1 with instanceAlive := false }, [Act.destroyInstance])
    else (r3.1, [])
  (r4.1, r1.2 ++ r2.2 ++ r3.2 ++ r4.2)

/-- A full shutdown path: events observed during the run, followed by the
teardown `Shutdown()` performs once the main loop has exited.  Returns the
final state and the complete recorded call order. -/
def runScenario (events : List StateEvent) : AppState × List Act :=
  let r := processEvents initState events
  let r2 := shutdown r.1
  (r2.1, r.2 ++ r2.2)

/-- Here `occursBefore a b tr = true` iff some occurrence of `a` in `tr` is
strictly before some occurrence of `b`. -/
def occursBefore (a b : Act) : List Act → Bool
  | [] => false
  | x :: rest => (x = a && rest.contains b) || occursBefore a b rest

end XRApp

namespace XRApp

/-- Oracle inputs for one `RenderViewToSwapchain` call
(`openxrapp.cpp` lines 782-942): results of the runtime calls and the
collaborators consulted in source order.  `cfgWidth`/`cfgHeight` are the
view's `recommendedImageRect` dimensions; `matEmpty`, `matCols`, `matRows`
describe the `cv::Mat` returned by `renderFromPoseXR`; `escOrg`/`escXR` are
the two `cv::waitKey(1) == 27` preview-window checks. -/
structure ViewOracle where
  acquireOk : Bool
  waitImageOk : Bool
  escOrg : Bool
  escXR : Bool
  cfgWidth : Nat
  cfgHeight : Nat
  matEmpty : Bool
  matCols : Nat
  matRows : Nat
  releaseOk : Bool
  deriving DecidableEq, Repr

/-- Model of `RenderViewToSwapchain` (`openxrapp.cpp` lines 782-942): acquire the
swapchain image, wait for it, render previews (each with an ESC-key early
exit), validate the rendered buffer's dimensions — releasing the acquired
image on that failure path (lines 854-860) — then upload, mirror-blit and
release.  Returns the routine's boolean result and the runtime calls made,
in order. -/
def renderViewToSwapchain (o : ViewOracle) : Bool × List Act :=
  if !o.acquireOk then (false, [.acquireImage])
  else if !o.waitImageOk then (false, [.acquireImage, .waitImage])
  else if o.escOrg then (false, [.acquireImage, .waitImage])
  else if o.escXR then (false, [.acquireImage, .waitImage])
  else if o.matEmpty || o.matCols != o.cfgWidth || o.matRows != o.cfgHeight then
    (false, [.acquireImage, .waitImage, .releaseImage])
  else if !o.releaseOk then
    (false, [.acquireImage, .waitImage, .uploadImage, .blitMirror, .releaseImage])
  else
    (true, [.acquireImage, .waitImage, .uploadImage, .blitMirror, .releaseImage])

/-- The per-view loop of `RenderFrameCycle` (`openxrapp.cpp` lines 727-737):
process views in order, `break` on the first failure.  Returns
`submitted_layers_ok` restricted to the loop and the concatenated calls. -/
def renderViews : List ViewOracle → Bool × List Act
  | [] => (true, [])
  | o :: rest =>
    let r := renderViewToSwapchain o
    if r.1 then
      let r2 := renderViews rest
      (r2.1, r.2 ++ r2.2)
    else
      (false, r.2)

/-- Oracle inputs for one `RenderFrameCycle` call
(`openxrapp.cpp` lines 678-778): `shouldRender` is `frame_state.shouldRender`
from `xrWaitFrame`; `locateOk`, `viewCountMatch`, `posValid`, `orientValid`
describe `xrLocateViews` and the `XrViewState` flags it writes; `views` are
the per-view oracles. -/
structure CycleOracle where
  waitFrameOk : Bool
  shouldRender : Bool
  beginFrameOk : Bool
  locateOk : Bool
  viewCountMatch : Bool
  posValid : Bool
  orientValid : Bool
  views : List ViewOracle
  endFrameOk : Bool

/-- Result of one `RenderFrameCycle` call: the routine's boolean result, the
recorded runtime calls, the `layerCount` passed to `xrEndFrame`, and the
value of `frame_state.shouldRender` after the locate step. -/
structure CycleResult where
  ok : Bool
  trace : List Act
  layerCount : Nat
  finalShouldRender : Bool
  deriving DecidableEq, Repr

/-- Model of `RenderFrameCycle` (`openxrapp.cpp` lines 678-778).  `xrWaitFrame` or
`xrBeginFrame` failure returns early; a locate failure, view-count mismatch
or invalid pose flags force `shouldRender` false for the cycle; the view
loop runs only when the located views are valid; `xrEndFrame` is always
reached after a successful `xrBeginFrame`, with `layerCount = 1` exactly
when `submitted_layers_ok` and both recorded pose-valid flags hold
(lines 758-772). -/
def renderFrameCycle (c : CycleOracle) : CycleResult :=
  if !c.waitFrameOk then ⟨false, [], 0, c.shouldRender⟩
  else if !c.beginFrameOk then ⟨false, [.beginFrame], 0, c.shouldRender⟩
  else
    let locateCalled := c.shouldRender
    let flagPos := locateCalled && c.locateOk && c.posValid
    let flagOrient := locateCalled && c.locateOk && c.orientValid
    let shouldRender1 :=
      c.shouldRender && c.locateOk && c.viewCountMatch && c.posValid && c.orientValid
    let locatedViews := shouldRender1
    let viewPart :=
      if shouldRender1 && locatedViews then renderViews c.views else (false, [])
    let submittedLayersOk := viewPart.1
    let layerCount :=
      if submittedLayersOk && flagPos && flagOrient then 1 else 0
    ⟨c.endFrameOk, .beginFrame :: (viewPart.2 ++ [.endFrame]), layerCount, shouldRender1⟩

/-- Whether a single view renders successfully end-to-end. -/
def viewOk (o : ViewOracle) : Bool := (renderViewToSwapchain o).1

end XRApp

namespace XRApp

/-- An `XrPosef`: position vector and quaternion, with components modelled
over exact rationals. -/
structure XrPosef where
  qw : ℚ
  qx : ℚ
  qy : ℚ
  qz : ℚ
  px : ℚ
  py : ℚ
  pz : ℚ

/-- The head-to-world homogeneous transform `Twv_xr` built by
`ConvertXrPoseToSophusSE3f` (`openxrapp.h` lines 499-503): rotation block
from `Eigen::Quaternionf::toRotationMatrix`, translation from the position. -/
def Twv (p : XrPosef) : Matrix (Fin 4) (Fin 4) ℚ :=
  !![1 - 2 * (p.qy ^ 2 + p.qz ^ 2), 2 * (p.qx * p.qy - p.qz * p.qw),
       2 * (p.qx * p.qz + p.qy * p.qw), p.px;
     2 * (p.qx * p.qy + p.qz * p.qw), 1 - 2 * (p.qx ^ 2 + p.qz ^ 2),
       2 * (p.qy * p.qz - p.qx * p.qw), p.py;
     2 * (p.qx * p.qz - p.qy * p.qw), 2 * (p.qy * p.qz + p.qx * p.qw),
       1 - 2 * (p.qx ^ 2 + p.qy ^ 2), p.pz;
     0, 0, 0, 1]

/-- The fixed diagonal axis correction `xr_to_cv_coord`
(`openxrapp.h` lines 510-512): identity with the Y and Z diagonal entries
flipped to `-1`. -/
def xr_to_cv_coord : Matrix (Fin 4) (Fin 4) ℚ :=
  !![1, 0, 0, 0;
     0, -1, 0, 0;
     0, 0, -1, 0;
     0, 0, 0, 1]

/-- Exact 4x4 matrix inversion (the model of `Eigen::Matrix4f::inverse()`):
the classical adjugate formula, kept executable. -/
def matInv4 (M : Matrix (Fin 4) (Fin 4) ℚ) : Matrix (Fin 4) (Fin 4) ℚ :=
  M.det⁻¹ • M.adjugate

/-- Model of `ConvertXrPoseToSophusSE3f` (`openxrapp.h` lines 493-524): invert the
head-to-world transform, then apply the axis correction:
`Tcw_cv_coords = xr_to_cv_coord * Twv_xr.inverse()`.  The source finally
repacks the rotation/translation blocks into a `Sophus::SE3f`; the
homogeneous 4x4 matrix is kept here. -/
def ConvertXrPoseToSophusSE3f (p : XrPosef) : Matrix (Fin 4) (Fin 4) ℚ :=
  xr_to_cv_coord * matInv4 (Twv p)

/-- The render pose computed in `RenderViewToSwapchain`
(`openxrapp.cpp` lines 820-824): `T_render = Thc * Tcw`, where `Thc` is the
converted device pose and `Tcw` is the inverse of the mapping engine's
current camera pose estimate (an external input). -/
def renderPoseT (p : XrPosef) (Tcw : Matrix (Fin 4) (Fin 4) ℚ) :
    Matrix (Fin 4) (Fin 4) ℚ :=
  ConvertXrPoseToSophusSE3f p * Tcw

/-- The constant `GL_SRGB8_ALPHA8_EXT`, the preferred swapchain format requested by
`CreateSwapchains` (`openxrapp.cpp` lines 445-448). -/
def GL_SRGB8_ALPHA8_EXT : Int := 0x8C43

/-- Model of `get_swapchain_format` (`openxrapp.h` lines 404-445).  Oracle inputs:
`enumCountOk`/`enumFormatsOk` are the results of the two
`xrEnumerateSwapchainFormats` calls, `formats` the formats the runtime
reports.  Returns `-1` on enumeration failure, when zero formats are
supported, or when the preferred format is missing and `fallback` is off;
otherwise the preferred format or the first supported one. -/
def get_swapchain_format (enumCountOk : Bool) (formats : List Int)
    (enumFormatsOk : Bool) (preferred_format : Int) (fallback : Bool) : Int :=
  if !enumCountOk then -1
  else if formats.length = 0 then -1
  else if !enumFormatsOk then -1
  else if formats.contains preferred_format then preferred_format
  else if fallback then formats.headI
  else -1

/-- The format-selection step of `CreateSwapchains`
(`openxrapp.cpp` lines 434-452): call `get_swapchain_format` with the SRGB
preference and `fallback = true`, treat only the value `0` as failure
(line 449), and otherwise use the returned value as the swapchain color
format.  `none` models the `return false` error path. -/
def createSwapchainsColorFormat (enumCountOk : Bool) (formats : List Int)
    (enumFormatsOk : Bool) : Option Int :=
  let color_format :=
    get_swapchain_format enumCountOk formats enumFormatsOk GL_SRGB8_ALPHA8_EXT true
  if color_format = 0 then none else some color_format

end XRApp

namespace FrameQueue

/-- A push into a queue holding at most `K = 10` entries leaves at most
`K` entries. -/
theorem push_length_le {α : Type} (q : List α) (x : α) (h : q.length ≤ 10) :
    (push q x).length ≤ 10 := by
  unfold push MAX_BUFFER_SIZE
  split
  · simp
    omega
  · simp
    omega

/-- Any sequence of pushes starting from a queue holding at most 10 entries
leaves at most 10 entries. -/
theorem pushAll_length_le {α : Type} (fs : List α) :
    ∀ q : List α, q.length ≤ 10 → (pushAll q fs).length ≤ 10 := by
  induction fs with
  | nil => intro q h; exact h
  | cons f fs ih => intro q h; exact ih (push q f) (push_length_le q f h)

end FrameQueue

/-- C1: a push into a full frame queue (length `K = 10`) removes the front
(oldest) entry before appending the new pair at the back; the queue length
never exceeds 10 (for a single push from any reachable length, and for any
push sequence from the empty queue); pushing frames `f1..f12` into the empty
queue leaves exactly `f3..f12` in that order; and repeated front/pop
operations drain them oldest-first.  (The push itself is a total function —
it never blocks and never fails.) -/
theorem frame_queue_drop_oldest_push :
    (∀ (q : List Nat) (x : Nat), q.length = 10 →
        FrameQueue.push q x = q.tail ++ [x]) ∧
    (∀ (q : List Nat) (x : Nat), q.length ≤ 10 →
        (FrameQueue.push q x).length ≤ 10) ∧
    (∀ fs : List Nat, (FrameQueue.pushAll ([] : List Nat) fs).length ≤ 10) ∧
    FrameQueue.pushAll ([] : List Nat) [1, 2, 3, 4, 5, 6, 7, 8, 9, 10, 11, 12] =
      [3, 4, 5, 6, 7, 8, 9, 10, 11, 12] ∧
    FrameQueue.drain
        (FrameQueue.pushAll ([] : List Nat) [1, 2, 3, 4, 5, 6, 7, 8, 9, 10, 11, 12]) =
      [3, 4, 5, 6, 7, 8, 9, 10, 11, 12] := by
  refine ⟨?_, ?_, ?_, ?_, ?_⟩
  · intro q x h
    simp [FrameQueue.push, FrameQueue.MAX_BUFFER_SIZE, h]
  · exact fun q x h => FrameQueue.push_length_le q x h
  · exact fun fs => FrameQueue.pushAll_length_le fs [] (by simp)
  · decide
  · decide

/-- C1 witness: the theorem's universally quantified parts evaluated at a
concrete full queue and a concrete overlong push sequence. -/
theorem frame_queue_drop_oldest_push_witness :
    FrameQueue.push [0, 1, 2, 3, 4, 5, 6, 7, 8, 9] 99 =
      [0, 1, 2, 3, 4, 5, 6, 7, 8, 9].tail ++ [99] ∧
    (FrameQueue.push [0, 1, 2, 3, 4, 5, 6, 7, 8, 9] 99).length ≤ 10 :=
  ⟨frame_queue_drop_oldest_push.1 [0, 1, 2, 3, 4, 5, 6, 7, 8, 9] 99 (by decide),
   frame_queue_drop_oldest_push.2.1 [0, 1, 2, 3, 4, 5, 6, 7, 8, 9] 99 (by decide)⟩

/-- C8: in every producer-loop iteration, a decode failure of either the
color or the depth message leaves the frame queue unchanged, pushes
nothing, and the loop goes on to process the remaining receives — the
failure never terminates the producer. -/
theorem ingest_decode_failure_drops_pair :
    ∀ (q : List Nat) (inp : FrameQueue.IngestInput Nat)
      (rest : List (FrameQueue.IngestInput Nat)),
      inp.rgbOk = false ∨ inp.depthOk = false →
      FrameQueue.socketReceiverStep q inp = q ∧
      FrameQueue.socketReceiverRun q (inp :: rest) =
        FrameQueue.socketReceiverRun q rest := by
  intro q inp rest h
  have hstep : FrameQueue.socketReceiverStep q inp = q := by
    rcases h with h | h <;> simp [FrameQueue.socketReceiverStep, h]
  exact ⟨hstep, by simp [FrameQueue.socketReceiverRun, hstep]⟩

/-- C8 witness: a failed color decode at a concrete queue and schedule. -/
theorem ingest_decode_failure_drops_pair_witness :
    FrameQueue.socketReceiverStep [7] ⟨false, true, 42⟩ = [7] ∧
    FrameQueue.socketReceiverRun [7]
        [⟨false, true, 42⟩, ⟨true, true, 43⟩] =
      FrameQueue.socketReceiverRun [7] [⟨true, true, 43⟩] :=
  ingest_decode_failure_drops_pair [7] ⟨false, true, 42⟩ [⟨true, true, 43⟩]
    (Or.inl rfl)

/-- C10: `get_swapchain_format` signals failure by returning `-1`
(enumeration error or zero supported formats, with `fallback = true` as the
caller passes), but `CreateSwapchains` treats only `0` as failure; so on
every input where the helper reports `-1`, swapchain creation does not
detect the error and proceeds with `-1` as the swapchain color format. -/
theorem swapchain_format_error_unchecked :
    ∀ (enumCountOk : Bool) (formats : List Int) (enumFormatsOk : Bool),
      XRApp.get_swapchain_format enumCountOk formats enumFormatsOk
          XRApp.GL_SRGB8_ALPHA8_EXT true = -1 →
      XRApp.createSwapchainsColorFormat enumCountOk formats enumFormatsOk =
        some (-1) := by
  intro e1 fs e2 h
  unfold XRApp.createSwapchainsColorFormat
  rw [h]
  norm_num

/-- C10 witness: a failing first enumeration call makes the helper return
`-1` and `CreateSwapchains` adopt `-1` as the color format. -/
theorem swapchain_format_error_unchecked_witness :
    XRApp.createSwapchainsColorFormat false [] true = some (-1) :=
  swapchain_format_error_unchecked false [] true (by decide)

/-- C7: a failed `xrBeginSession` on the READY transition sets the global
quit flag (fatal); a failed `xrEndSession` on the STOPPING transition is
only logged — the transition still completes, with `m_session_running` and
`m_run_framecycle` both false, and the resulting state and recorded calls
identical to the successful-end case. -/
theorem session_begin_fatal_end_nonfatal :
    (∀ (s : XRApp.AppState) (endOk : Bool), s.sessionRunning = false →
        (XRApp.handleSessionStateChanged s ⟨.ready, false, endOk⟩).1.quitMainloop
          = true) ∧
    (∀ (s : XRApp.AppState) (beginOk : Bool), s.sessionRunning = true →
        (XRApp.handleSessionStateChanged s ⟨.stopping, beginOk, false⟩).1.sessionRunning
            = false ∧
          (XRApp.handleSessionStateChanged s ⟨.stopping, beginOk, false⟩).1.runFramecycle
            = false ∧
          XRApp.handleSessionStateChanged s ⟨.stopping, beginOk, false⟩ =
            XRApp.handleSessionStateChanged s ⟨.stopping, beginOk, true⟩) := by
  constructor
  · intro s endOk h
    simp [XRApp.handleSessionStateChanged, h]
  · intro s beginOk h
    refine ⟨?_, ?_, ?_⟩ <;> simp [XRApp.handleSessionStateChanged, h]

/-- C7 witness: the theorem evaluated at the post-`Initialize` state (not
yet running) for the READY half, and at a running variant of it for the
STOPPING half. -/
theorem session_begin_fatal_end_nonfatal_witness :
    (XRApp.handleSessionStateChanged XRApp.initState
        ⟨.ready, false, true⟩).1.quitMainloop = true ∧
    (XRApp.handleSessionStateChanged { XRApp.initState with sessionRunning := true }
        ⟨.stopping, true, false⟩).1.sessionRunning = false :=
  ⟨session_begin_fatal_end_nonfatal.1 XRApp.initState true rfl,
   (session_begin_fatal_end_nonfatal.2
      { XRApp.initState with sessionRunning := true } true rfl).1⟩

namespace XRApp

/-- The executable adjugate-formula inverse agrees with Mathlib's matrix
inverse over the rationals. -/
theorem matInv4_eq_inv (M : Matrix (Fin 4) (Fin 4) ℚ) : matInv4 M = M⁻¹ := by
  rw [Matrix.inv_def, matInv4, Ring.inverse_eq_inv]

end XRApp

/-- C9: the pose bridge's fixed diagonal axis correction (flip Y, flip Z) is
an involution — applying it twice is the identity transform — and the
bridge's output `T_render` is the correction applied to the inverse of the
head-to-world transform, composed with the transform obtained from the
engine's current camera pose estimate. -/
theorem pose_bridge_correction_involution :
    XRApp.xr_to_cv_coord * XRApp.xr_to_cv_coord = 1 ∧
    (∀ M : Matrix (Fin 4) (Fin 4) ℚ, XRApp.matInv4 M = M⁻¹) ∧
    (∀ (p : XRApp.XrPosef) (Tcw : Matrix (Fin 4) (Fin 4) ℚ),
        XRApp.renderPoseT p Tcw =
          XRApp.xr_to_cv_coord * XRApp.matInv4 (XRApp.Twv p) * Tcw) := by
  refine ⟨?_, XRApp.matInv4_eq_inv, fun p Tcw => rfl⟩
  ext i j
  fin_cases i <;> fin_cases j <;>
    simp [XRApp.xr_to_cv_coord, Matrix.mul_apply, Fin.sum_univ_four,
      Matrix.one_apply, Matrix.vecHead, Matrix.vecTail]


namespace XRApp

/-- Every runtime call a per-view render makes is one of the five image-level
calls — in particular never a frame-level begin/end call. -/
theorem view_trace_acts (o : ViewOracle) :
    ∀ a ∈ (renderViewToSwapchain o).2,
      a = Act.acquireImage ∨ a = Act.waitImage ∨ a = Act.uploadImage ∨
        a = Act.blitMirror ∨ a = Act.releaseImage := by
  unfold renderViewToSwapchain
  repeat' split
  all_goals decide

/-- The same holds for the whole per-view loop. -/
theorem renderViews_trace_acts (vs : List ViewOracle) :
    ∀ a ∈ (renderViews vs).2,
      a = Act.acquireImage ∨ a = Act.waitImage ∨ a = Act.uploadImage ∨
        a = Act.blitMirror ∨ a = Act.releaseImage := by
  induction vs with
  | nil => simp [renderViews]
  | cons o rest ih =>
    simp only [renderViews]
    split
    · intro a ha
      rw [List.mem_append] at ha
      exact ha.elim (view_trace_acts o a) (ih a)
    · exact view_trace_acts o

/-- The per-view loop never makes a frame-level `xrEndFrame` call. -/
theorem endFrame_not_mem_renderViews (vs : List ViewOracle) :
    Act.endFrame ∉ (renderViews vs).2 := by
  intro h
  rcases renderViews_trace_acts vs _ h with h' | h' | h' | h' | h' <;> cases h'

/-- The per-view loop never makes a frame-level `xrBeginFrame` call. -/
theorem beginFrame_not_mem_renderViews (vs : List ViewOracle) :
    Act.beginFrame ∉ (renderViews vs).2 := by
  intro h
  rcases renderViews_trace_acts vs _ h with h' | h' | h' | h' | h' <;> cases h'

/-- The per-view loop succeeds exactly when every view in the list renders
successfully. -/
theorem renderViews_ok_iff (vs : List ViewOracle) :
    (renderViews vs).1 = vs.all viewOk := by
  induction vs with
  | nil => rfl
  | cons o rest ih =>
    simp only [renderViews, List.all_cons, viewOk]
    split
    · rename_i h
      rw [h]
      simpa using ih
    · rename_i h
      simp only [Bool.not_eq_true] at h
      rw [h]
      rfl

end XRApp

/-- C4: in every frame cycle in which `xrBeginFrame` was reached and
succeeded, `xrEndFrame` is invoked exactly once before the cycle routine
returns (and `xrBeginFrame` itself exactly once), for every combination of
locate-views success/failure and per-view render success/failure. -/
theorem end_frame_once_per_begin_frame :
    ∀ c : XRApp.CycleOracle, c.waitFrameOk = true → c.beginFrameOk = true →
      (XRApp.renderFrameCycle c).trace.count .endFrame = 1 ∧
        (XRApp.renderFrameCycle c).trace.count .beginFrame = 1 := by
  intro c hw hb
  unfold XRApp.renderFrameCycle
  rw [hw, hb]
  simp only [Bool.not_true, Bool.false_eq_true, if_false, reduceIte]
  constructor
  · split <;>
      simp [List.count_cons, List.count_append,
        List.count_eq_zero.mpr (XRApp.endFrame_not_mem_renderViews _),
        List.count_eq_zero]
  · split <;>
      simp [List.count_cons, List.count_append,
        List.count_eq_zero.mpr (XRApp.beginFrame_not_mem_renderViews _),
        List.count_eq_zero]

/-- C4 witness: a cycle whose locate step fails and whose one view would
fail to render still begins and ends the frame exactly once. -/
theorem end_frame_once_per_begin_frame_witness :
    (XRApp.renderFrameCycle
        ⟨true, true, true, false, true, true, true,
          [⟨false, true, false, false, 640, 480, false, 640, 480, true⟩],
          true⟩).trace.count .endFrame = 1 :=
  (end_frame_once_per_begin_frame
    ⟨true, true, true, false, true, true, true,
      [⟨false, true, false, false, 640, 480, false, 640, 480, true⟩], true⟩
    rfl rfl).1

/-- C5: in every frame cycle (past a successful wait/begin), exactly one
layer is submitted at `xrEndFrame` iff `shouldRender` was true initially and
survived the locate step, every view rendered successfully, and both the
position-valid and orientation-valid flags were set at locate time; in every
other case zero layers are submitted. -/
theorem one_layer_iff_full_success :
    ∀ c : XRApp.CycleOracle, c.waitFrameOk = true → c.beginFrameOk = true →
      ((XRApp.renderFrameCycle c).layerCount = 1 ↔
        ((XRApp.renderFrameCycle c).finalShouldRender = true ∧
          c.shouldRender = true ∧ c.views.all XRApp.viewOk = true ∧
          c.posValid = true ∧ c.orientValid = true)) ∧
      ((XRApp.renderFrameCycle c).layerCount = 1 ∨
        (XRApp.renderFrameCycle c).layerCount = 0) := by
  intro c hw hb
  constructor
  · cases hsr : c.shouldRender <;> cases hlo : c.locateOk <;>
      cases hvc : c.viewCountMatch <;> cases hpv : c.posValid <;>
      cases hov : c.orientValid <;>
      simp [XRApp.renderFrameCycle, hw, hb, hsr, hlo, hvc, hpv, hov,
        XRApp.renderViews_ok_iff]
  · unfold XRApp.renderFrameCycle
    rw [hw, hb]
    simp only [Bool.not_true, Bool.false_eq_true, if_false, reduceIte]
    split <;> simp

/-- C5 witness: a fully successful single-view cycle submits one layer, and
the same cycle with the orientation-valid flag cleared submits zero. -/
theorem one_layer_iff_full_success_witness :
    (XRApp.renderFrameCycle
        ⟨true, true, true, true, true, true, true,
          [⟨true, true, false, false, 640, 480, false, 640, 480, true⟩],
          true⟩).layerCount = 1 ∧
    (XRApp.renderFrameCycle
        ⟨true, true, true, true, true, true, false,
          [⟨true, true, false, false, 640, 480, false, 640, 480, true⟩],
          true⟩).layerCount = 0 :=
  ⟨((one_layer_iff_full_success
      ⟨true, true, true, true, true, true, true,
        [⟨true, true, false, false, 640, 480, false, 640, 480, true⟩], true⟩
      rfl rfl).1).mpr (by decide),
   by
    have h := (one_layer_iff_full_success
      ⟨true, true, true, true, true, true, false,
        [⟨true, true, false, false, 640, 480, false, 640, 480, true⟩], true⟩
      rfl rfl)
    rcases h.2 with h1 | h0
    · exact absurd (h.1.mp h1) (by decide)
    · exact h0⟩

/-- C2: a per-view render that fails after the swapchain image was acquired
— the renderer returning an empty buffer or one whose dimensions mismatch
the view's — returns failure with the acquired image released before
returning (the recorded calls are exactly acquire, wait, release); a failing
view stops the per-view loop (views after it contribute no calls) and
reports the whole cycle's render as failed; and a cycle whose view loop
failed submits zero layers. -/
theorem failing_view_releases_image :
    (∀ o : XRApp.ViewOracle, o.acquireOk = true → o.waitImageOk = true →
        o.escOrg = false → o.escXR = false →
        (o.matEmpty || o.matCols != o.cfgWidth || o.matRows != o.cfgHeight)
          = true →
        XRApp.renderViewToSwapchain o =
          (false, [.acquireImage, .waitImage, .releaseImage])) ∧
    (∀ (o : XRApp.ViewOracle) (rest : List XRApp.ViewOracle),
        (XRApp.renderViewToSwapchain o).1 = false →
        XRApp.renderViews (o :: rest) =
          (false, (XRApp.renderViewToSwapchain o).2)) ∧
    (∀ c : XRApp.CycleOracle, c.waitFrameOk = true → c.beginFrameOk = true →
        (XRApp.renderViews c.views).1 = false →
        (XRApp.renderFrameCycle c).layerCount = 0) := by
  refine ⟨?_, ?_, ?_⟩
  · intro o h1 h2 h3 h4 h5
    unfold XRApp.renderViewToSwapchain
    simp [h1, h2, h3, h4, h5]
  · intro o rest h
    simp [XRApp.renderViews, h]
  · intro c hw hb h
    unfold XRApp.renderFrameCycle
    rw [hw, hb]
    simp only [Bool.not_true, Bool.false_eq_true, if_false, reduceIte]
    split <;> simp [h]

/-- C2 witness: a view whose renderer returns an empty buffer, after a
successful acquire and wait, in a two-view cycle. -/
theorem failing_view_releases_image_witness :
    XRApp.renderViewToSwapchain
        ⟨true, true, false, false, 640, 480, true, 640, 480, true⟩ =
      (false, [.acquireImage, .waitImage, .releaseImage]) ∧
    XRApp.renderViews
        [⟨true, true, false, false, 640, 480, true, 640, 480, true⟩,
         ⟨true, true, false, false, 640, 480, false, 640, 480, true⟩] =
      (false,
        (XRApp.renderViewToSwapchain
          ⟨true, true, false, false, 640, 480, true, 640, 480, true⟩).2) ∧
    (XRApp.renderFrameCycle
        ⟨true, true, true, true, true, true, true,
          [⟨true, true, false, false, 640, 480, true, 640, 480, true⟩,
           ⟨true, true, false, false, 640, 480, false, 640, 480, true⟩],
          true⟩).layerCount = 0 :=
  ⟨failing_view_releases_image.1
      ⟨true, true, false, false, 640, 480, true, 640, 480, true⟩
      rfl rfl rfl rfl (by decide),
   failing_view_releases_image.2.1
      ⟨true, true, false, false, 640, 480, true, 640, 480, true⟩
      [⟨true, true, false, false, 640, 480, false, 640, 480, true⟩]
      (by decide),
   failing_view_releases_image.2.2
      ⟨true, true, true, true, true, true, true,
        [⟨true, true, false, false, 640, 480, true, 640, 480, true⟩,
         ⟨true, true, false, false, 640, 480, false, 640, 480, true⟩],
        true⟩
      rfl rfl (by decide)⟩

namespace XRApp

/-- The frame-cycle-enable column of the session-state transition table:
true after READY / SYNCHRONIZED / VISIBLE / FOCUSED, false after IDLE /
STOPPING / EXITING / LOSS_PENDING / UNKNOWN. -/
def tableFlag : SessionState → Bool
  | .ready => true
  | .synchronized => true
  | .visible => true
  | .focused => true
  | .unknown => false
  | .idle => false
  | .stopping => false
  | .exiting => false
  | .lossPending => false

/-- After handling one state-changed event whose session-begin request (if
any) succeeds, `m_run_framecycle` equals the table entry for the new
state. -/
theorem handle_runFramecycle_table (s : AppState) (ev : StateEvent)
    (hb : ev.beginOk = true) :
    (handleSessionStateChanged s ev).1.runFramecycle = tableFlag ev.newState := by
  rcases ev with ⟨ns, bOk, eOk⟩
  dsimp only at hb
  subst hb
  cases ns <;> cases hrun : s.sessionRunning <;> cases halive : s.sessionAlive <;>
    simp [handleSessionStateChanged, tableFlag, hrun, halive]

/-- After any event sequence whose begin requests all succeed,
`m_run_framecycle` equals the table entry for the last event's state. -/
theorem processEvents_runFramecycle_table :
    ∀ (evs : List StateEvent) (ev : StateEvent) (s : AppState),
      (∀ e ∈ evs ++ [ev], e.beginOk = true) →
      (processEvents s (evs ++ [ev])).1.runFramecycle = tableFlag ev.newState := by
  intro evs
  induction evs with
  | nil =>
    intro ev s h
    simpa [processEvents] using handle_runFramecycle_table s ev (h ev (by simp))
  | cons e evs ih =>
    intro ev s h
    have hrest : ∀ x ∈ evs ++ [ev], x.beginOk = true := by
      intro x hx
      exact h x (by simp at hx ⊢; tauto)
    simpa [processEvents] using ih ev (handleSessionStateChanged s e).1 hrest

/-- The concrete READY → SYNCHRONIZED → STOPPING → EXITING event trace, with
all runtime requests succeeding. -/
def readyToExitingEvents : List StateEvent :=
  [⟨.ready, true, true⟩, ⟨.synchronized, true, true⟩,
   ⟨.stopping, true, true⟩, ⟨.exiting, true, true⟩]

end XRApp

/-- C6: for every legal sequence of StateChanged events (one whose
session-begin requests succeed; begin failure is the fatal case of C7),
the frame-cycle-enabled flag after each transition matches the state table;
and the concrete trace READY → SYNCHRONIZED → STOPPING → EXITING begins the
session exactly once, keeps the flag true between READY and STOPPING, ends
the session exactly once at STOPPING, destroys the session and the instance
exactly once, and sets the quit flag at EXITING. -/
theorem session_state_machine_table :
    (∀ (evs : List XRApp.StateEvent) (ev : XRApp.StateEvent)
        (s : XRApp.AppState),
        (∀ e ∈ evs ++ [ev], e.beginOk = true) →
        (XRApp.processEvents s (evs ++ [ev])).1.runFramecycle =
          XRApp.tableFlag ev.newState) ∧
    ((XRApp.processEvents XRApp.initState
        (XRApp.readyToExitingEvents.take 1)).1.runFramecycle = true ∧
      (XRApp.processEvents XRApp.initState
        (XRApp.readyToExitingEvents.take 2)).1.runFramecycle = true ∧
      (XRApp.processEvents XRApp.initState
        (XRApp.readyToExitingEvents.take 3)).1.runFramecycle = false ∧
      (XRApp.processEvents XRApp.initState
        XRApp.readyToExitingEvents).1.runFramecycle = false ∧
      (XRApp.processEvents XRApp.initState
        XRApp.readyToExitingEvents).1.quitMainloop = true ∧
      (XRApp.runScenario XRApp.readyToExitingEvents).2.count .beginSession = 1 ∧
      (XRApp.runScenario XRApp.readyToExitingEvents).2.count .endSession = 1 ∧
      (XRApp.runScenario XRApp.readyToExitingEvents).2.count .destroySession = 1 ∧
      (XRApp.runScenario XRApp.readyToExitingEvents).2.count .destroyInstance = 1) :=
  ⟨XRApp.processEvents_runFramecycle_table, by decide⟩

/-- C6 witness: the table part of the theorem evaluated on the singleton
READY trace from the post-`Initialize` state. -/
theorem session_state_machine_table_witness :
    (XRApp.processEvents XRApp.initState
      [⟨.ready, true, true⟩]).1.runFramecycle = XRApp.tableFlag .ready :=
  session_state_machine_table.1 [] ⟨.ready, true, true⟩ XRApp.initState
    (by decide)

namespace XRApp

/-- Every call the event handler makes is a begin-, end- or
destroy-session call — it never touches swapchains, space or instance. -/
theorem handle_trace_acts (s : AppState) (ev : StateEvent) :
    ∀ a ∈ (handleSessionStateChanged s ev).2,
      a = Act.beginSession ∨ a = Act.endSession ∨ a = Act.destroySession := by
  rcases ev with ⟨ns, bOk, eOk⟩
  cases ns <;> cases hrun : s.sessionRunning <;> cases halive : s.sessionAlive <;>
    cases bOk <;> simp [handleSessionStateChanged, hrun, halive]

/-- The same holds for a whole event sequence. -/
theorem processEvents_trace_acts (evs : List StateEvent) :
    ∀ s : AppState, ∀ a ∈ (processEvents s evs).2,
      a = Act.beginSession ∨ a = Act.endSession ∨ a = Act.destroySession := by
  induction evs with
  | nil => intro s a ha; simp [processEvents] at ha
  | cons ev rest ih =>
    intro s a ha
    simp only [processEvents] at ha
    rw [List.mem_append] at ha
    exact ha.elim (handle_trace_acts s ev a) (ih _ a)

/-- The event handler destroys the session only on an EXITING or
LOSS_PENDING event. -/
theorem handle_no_destroySession (s : AppState) (ev : StateEvent)
    (h1 : ev.newState ≠ SessionState.exiting)
    (h2 : ev.newState ≠ SessionState.lossPending) :
    Act.destroySession ∉ (handleSessionStateChanged s ev).2 := by
  rcases ev with ⟨ns, bOk, eOk⟩
  dsimp only at h1 h2
  cases ns <;> cases hrun : s.sessionRunning <;> cases halive : s.sessionAlive <;>
    cases bOk <;> simp_all [handleSessionStateChanged, hrun, halive]

/-- An event sequence without EXITING/LOSS_PENDING transitions never
destroys the session. -/
theorem processEvents_no_destroySession (evs : List StateEvent)
    (h : ∀ e ∈ evs, e.newState ≠ SessionState.exiting ∧
        e.newState ≠ SessionState.lossPending) :
    ∀ s : AppState, Act.destroySession ∉ (processEvents s evs).2 := by
  induction evs with
  | nil => intro s; simp [processEvents]
  | cons ev rest ih =>
    intro s
    simp only [processEvents]
    rw [List.mem_append]
    rintro (hm | hm)
    · exact handle_no_destroySession s ev (h ev (by simp)).1 (h ev (by simp)).2 hm
    · exact ih (fun e he => h e (by simp [he])) _ hm

/-- The event handler never destroys swapchains, space or instance. -/
theorem processEvents_preserves_handles (evs : List StateEvent) :
    ∀ s : AppState,
      (processEvents s evs).1.swapchainsAlive = s.swapchainsAlive ∧
      (processEvents s evs).1.spaceAlive = s.spaceAlive ∧
      (processEvents s evs).1.instanceAlive = s.instanceAlive := by
  induction evs with
  | nil => intro s; exact ⟨rfl, rfl, rfl⟩
  | cons ev rest ih =>
    intro s
    have h1 : (handleSessionStateChanged s ev).1.swapchainsAlive = s.swapchainsAlive ∧
        (handleSessionStateChanged s ev).1.spaceAlive = s.spaceAlive ∧
        (handleSessionStateChanged s ev).1.instanceAlive = s.instanceAlive := by
      rcases ev with ⟨ns, bOk, eOk⟩
      cases ns <;> cases hrun : s.sessionRunning <;>
        cases halive : s.sessionAlive <;> cases bOk <;>
        simp [handleSessionStateChanged, hrun, halive]
    have h2 := ih (handleSessionStateChanged s ev).1
    simp only [processEvents]
    exact ⟨h2.1.trans h1.1, h2.2.1.trans h1.2.1, h2.2.2.trans h1.2.2⟩

/-- If `a` does not occur in the prefix and does not occur before `b` in the
suffix, it does not occur before `b` in the concatenation. -/
theorem occursBefore_append_eq_false {a b : Act} {xs ys : List Act}
    (hxs : a ∉ xs) (hys : occursBefore a b ys = false) :
    occursBefore a b (xs ++ ys) = false := by
  induction xs with
  | nil => simpa using hys
  | cons x xs ih =>
    have hx : ¬(x = a) := fun h => hxs (by simp [h])
    have hxs2 : a ∉ xs := fun hm => hxs (List.mem_cons_of_mem _ hm)
    simp only [List.cons_append, occursBefore, decide_eq_false hx,
      Bool.false_and, Bool.false_or]
    exact ih hxs2

/-- The destroy order within `Shutdown()` itself: never the session before
the swapchains or the space, never the instance before the session. -/
theorem shutdown_order_ok (s : AppState) (h1 : s.swapchainsAlive = true)
    (h2 : s.spaceAlive = true) (h3 : s.instanceAlive = true) :
    occursBefore .destroyInstance .destroySession (shutdown s).2 = false ∧
    occursBefore .destroySession .destroySwapchain (shutdown s).2 = false ∧
    occursBefore .destroySession .destroySpace (shutdown s).2 = false := by
  obtain ⟨st, run, fc, quit, sess, swap, space, inst⟩ := s
  dsimp only at h1 h2 h3
  subst h1
  subst h2
  subst h3
  cases st <;> cases run <;> cases fc <;> cases quit <;> cases sess <;> decide

end XRApp

/-- C3 counterexample: on the clean-exit shutdown path
READY → STOPPING → EXITING followed by `Shutdown()`, the recorded destroy
order is session, then swapchains, then space, then instance — the session
IS destroyed before the swapchains and the space, refuting the claim for
the EXITING terminal transition. -/
theorem teardown_order_counterexample :
    (XRApp.runScenario [⟨.ready, true, true⟩, ⟨.stopping, true, true⟩,
        ⟨.exiting, true, true⟩]).2 =
      [.beginSession, .endSession, .destroySession, .destroySwapchain,
        .destroySpace, .destroyInstance] ∧
    XRApp.occursBefore .destroySession .destroySwapchain
      (XRApp.runScenario [⟨.ready, true, true⟩, ⟨.stopping, true, true⟩,
        ⟨.exiting, true, true⟩]).2 = true ∧
    XRApp.occursBefore .destroySession .destroySpace
      (XRApp.runScenario [⟨.ready, true, true⟩, ⟨.stopping, true, true⟩,
        ⟨.exiting, true, true⟩]).2 = true := by
  decide

/-- C3 (amended): on every shutdown path the instance is never destroyed
before the session; and on every shutdown path containing no
EXITING/LOSS_PENDING transition (fatal abort, forced early exit), the
session is never destroyed before the swapchains or the space.  On
EXITING/LOSS_PENDING paths the handler destroys the session at the terminal
transition, before `Shutdown()` destroys the swapchains and the space. -/
theorem teardown_order_outside_terminal :
    ∀ events : List XRApp.StateEvent,
      XRApp.occursBefore .destroyInstance .destroySession
          (XRApp.runScenario events).2 = false ∧
      ((∀ e ∈ events, e.newState ≠ XRApp.SessionState.exiting ∧
          e.newState ≠ XRApp.SessionState.lossPending) →
        XRApp.occursBefore .destroySession .destroySwapchain
            (XRApp.runScenario events).2 = false ∧
          XRApp.occursBefore .destroySession .destroySpace
            (XRApp.runScenario events).2 = false) := by
  intro events
  have hpres := XRApp.processEvents_preserves_handles events XRApp.initState
  have hsd := XRApp.shutdown_order_ok (XRApp.processEvents XRApp.initState events).1
    hpres.1 hpres.2.1 hpres.2.2
  constructor
  · refine XRApp.occursBefore_append_eq_false ?_ hsd.1
    intro hm
    rcases XRApp.processEvents_trace_acts events XRApp.initState _ hm with
      h | h | h <;> cases h
  · intro hterm
    have hnosess := XRApp.processEvents_no_destroySession events hterm XRApp.initState
    exact ⟨XRApp.occursBefore_append_eq_false hnosess hsd.2.1,
      XRApp.occursBefore_append_eq_false hnosess hsd.2.2⟩

/-- C3 witness: the amended theorem evaluated on a concrete non-terminal
shutdown path (a fatal abort while FOCUSED). -/
theorem teardown_order_outside_terminal_witness :
    XRApp.occursBefore .destroyInstance .destroySession
        (XRApp.runScenario [⟨.ready, true, true⟩, ⟨.focused, true, true⟩]).2
      = false ∧
    XRApp.occursBefore .destroySession .destroySwapchain
        (XRApp.runScenario [⟨.ready, true, true⟩, ⟨.focused, true, true⟩]).2
      = false ∧
    XRApp.occursBefore .destroySession .destroySpace
        (XRApp.runScenario [⟨.ready, true, true⟩, ⟨.focused, true, true⟩]).2
      = false :=
  ⟨(teardown_order_outside_terminal
      [⟨.ready, true, true⟩, ⟨.focused, true, true⟩]).1,
   ((teardown_order_outside_terminal
      [⟨.ready, true, true⟩, ⟨.focused, true, true⟩]).2 (by decide)).1,
   ((teardown_order_outside_terminal
      [⟨.ready, true, true⟩, ⟨.focused, true, true⟩]).2 (by decide)).2⟩
